import Mathlib

/-!
Shallow embedding of `src/kind.rs`: the tagged-dispatch construction core of
an error-unification library. The file models

* the compile-time capability resolution performed by the `anyhow_kind()`
  autoref trick (`AdhocKind`, `TraitKind`, `BoxedKind` and the method
  resolution of `(&error).anyhow_kind()`), over an abstract record of the
  Rust-type-level capabilities of the input type;
* the three constructors `Adhoc::new`, `Trait::new`, `Boxed::new`, over
  value-level models of their inputs, parametric in the external error sink
  (`build`, `build_from_cause`, `build_from_boxed`), which is out of scope
  for the core and therefore modelled from the spec;
* the two host-capability build flags (`track_caller`, backtrace facility)
  and the `std` feature flag as a `Config` record fixed per build.
-/

namespace AnyhowKind

/-- An opaque backtrace token: which stack snapshot a capture would yield. -/
abbrev Backtrace := Nat

/-- An opaque call-site location token (file + line of a construction call). -/
abbrev Location := Nat

/-- The conditional-compilation surface, fixed once per build:
`std` — whether the host standard-library feature is enabled
(`#[cfg(feature = "std")]` in `kind.rs`); `trackCaller` — whether call-site
location tracking is available (`#[cfg(track_caller)]`); `backtraceEnabled` —
whether the host backtrace facility exists (governs the `backtrace!()` macro). -/
structure Config where
  std : Bool
  trackCaller : Bool
  backtraceEnabled : Bool
deriving DecidableEq, Repr

/-- The shape of the caller's input type, as far as the single non-generic
impl head in `kind.rs` can distinguish it: either the type is
`Box<dyn StdError + ...>` with the given marker bounds present, or it is
anything else. `impl BoxedKind for Box<dyn StdError + Send + Sync>` covers
exactly the shape with both bounds. -/
inductive TyShape
  | boxDynStdError (send : Bool) (sync : Bool)
  | other
deriving DecidableEq, Repr

/-- Type-level capabilities of the caller's input type `M`, the data Rust
trait resolution consults when resolving `(&error).anyhow_kind()`:
whether `M : Display`, `M : Debug`, `M : Send`, `M : Sync`, `M : 'static`,
and whether `M : Into<Error>` holds (the bound of `TraitKind`'s blanket
impl). -/
structure InputTy where
  shape : TyShape
  display : Bool
  debug : Bool
  send : Bool
  sync : Bool
  staticLt : Bool
  intoError : Bool
deriving DecidableEq, Repr

/-- `impl<T> AdhocKind for &T where T: ?Sized + Display + Debug + Send + Sync
+ 'static` (kind.rs line 64): the Adhoc-eligibility predicate. -/
def adhocKindApplies (t : InputTy) : Bool :=
  t.display && t.debug && t.send && t.sync && t.staticLt

/-- `impl<E> TraitKind for E where E: Into<Error>` (kind.rs line 91): the
StructuredCause-eligibility predicate. -/
def traitKindApplies (t : InputTy) : Bool :=
  t.intoError

/-- `#[cfg(feature = "std")] impl BoxedKind for Box<dyn StdError + Send +
Sync>` (kind.rs lines 129-130): the Boxed-eligibility predicate. The impl
exists only in `std` builds and its head is the single concrete type
`Box<dyn StdError + Send + Sync>`. -/
def boxedKindApplies (cfg : Config) (t : InputTy) : Bool :=
  cfg.std &&
    match t.shape with
    | .boxDynStdError s y => s && y
    | .other => false

/-- The three capability tags (zero-sized marker values in the source:
`pub struct Adhoc`, `pub struct Trait`, `pub struct Boxed`). -/
inductive Tag
  | adhoc
  | structuredCause
  | boxed
deriving DecidableEq, Repr

/-- Outcome of Rust method resolution for `(&error).anyhow_kind()`: a unique
method found (one tag), an ambiguity between two impls at the same autoref
step (a compile-time error), or no impl at all (a compile-time error). -/
inductive Resolution
  | resolved (tag : Tag)
  | ambiguous
  | noMatch
deriving DecidableEq, Repr

/-- The capability resolver: Rust method resolution for the macro call
`(&error).anyhow_kind()` (kind.rs lines 40-45). With receiver `&error : &M`,
the first probe step finds the `anyhow_kind` methods of impls on `M` itself —
`TraitKind` (if `M : Into<Error>`) and `BoxedKind` (if `M` is
`Box<dyn StdError + Send + Sync>`, `std` only); if both match at this step
the call is ambiguous. Only when neither matches does the extra autoref step
reach `AdhocKind`'s impl on `&M` (this is the lower-precedence step the
comment on lines 32-38 describes); if that too fails, no method exists and
the call does not compile. -/
def resolveTag (cfg : Config) (t : InputTy) : Resolution :=
  match traitKindApplies t, boxedKindApplies cfg t with
  | true, true => .ambiguous
  | true, false => .resolved .structuredCause
  | false, true => .resolved .boxed
  | false, false =>
    if adhocKindApplies t then .resolved .adhoc else .noMatch

/-- Which tag a given eligibility predicate belongs to. -/
def eligible (cfg : Config) (t : InputTy) : Tag → Bool
  | .adhoc => adhocKindApplies t
  | .structuredCause => traitKindApplies t
  | .boxed => boxedKindApplies cfg t

/-- The spec's precedence order on tags: Boxed > StructuredCause > Adhoc. -/
def prec : Tag → Nat
  | .adhoc => 0
  | .structuredCause => 1
  | .boxed => 2

/-- Type-level facts about the surrounding crate that `kind.rs` relies on but
that live outside this file's source (the `From` impls on `Error` in
`error.rs`, and libstd's lack of an `Error` impl for `Box<dyn Error + ...>`):
the type `Box<dyn StdError + Send + Sync>` is not convertible into the
unified `Error` (no `From<Box<dyn StdError + Send + Sync>>` impl exists on
`Error`, and the boxed trait object itself does not implement `StdError`),
so a Boxed-shaped input type never satisfies `TraitKind`'s `Into<Error>`
bound. -/
def TyWF (t : InputTy) : Prop :=
  ∀ s y, t.shape = .boxDynStdError s y → t.intoError = false

/-! ## Value-level model of the constructors and the error sink -/

/-- The Unified Error, observed only through its general-purpose interface
(spec section 3): display text, cause chain (the display texts of the
causes, outermost first), optional backtrace, optional call-site location. -/
structure Error where
  msg : String
  chain : List String
  backtrace : Option Backtrace
  location : Option Location
deriving DecidableEq, Repr

/-- A value-level model of an Adhoc-eligible input `M`: all the constructor
uses of it go through its `Display` formatting. -/
structure AdhocMsg where
  display : String
deriving DecidableEq, Repr

/-- A value-level model of a StructuredCause-eligible input `E : Into<Error>`:
`intoError` is the unified error that the direct conversion `E.into()`
produces (carrying whatever chain, backtrace and location the out-of-scope
conversion path supplies). -/
structure CausalErr where
  intoError : Error
deriving DecidableEq, Repr

/-- A value-level model of a boxed input `Box<dyn StdError + Send + Sync>`:
its display text, its `source()` chain, and the backtrace it reports through
the structured-error interface (if any). -/
structure BoxedObj where
  display : String
  sources : List String
  backtrace : Option Backtrace
deriving DecidableEq, Repr

/-- The `backtrace!()` macro: captures a fresh backtrace at the call site
when the host backtrace facility is enabled, and produces nothing otherwise.
`here` is the stack snapshot a capture at this call site would yield. -/
def backtrace_capture (cfg : Config) (here : Backtrace) : Option Backtrace :=
  if cfg.backtraceEnabled then some here else none

/-- The `backtrace_if_absent!(&*error)` macro (kind.rs line 137): query the
boxed object's reported backtrace first and capture a fresh one only when it
reports none. -/
def backtrace_if_absent (cfg : Config) (reported : Option Backtrace)
    (here : Backtrace) : Option Backtrace :=
  match reported with
  | some _ => none
  | none => backtrace_capture cfg here

/-- The `#[cfg(track_caller)] Location::caller()` argument: present exactly
when call-site tracking is compiled in. `caller` is the location of the
construction call site. -/
def caller_location (cfg : Config) (caller : Location) : Option Location :=
  if cfg.trackCaller then some caller else none

/-- Modelled from the spec: `Error::set_location` (error.rs, outside src/) —
"overwrites/sets the Call-Site Location on the resulting Unified Error to
the current call site" (spec section 4.3). -/
def set_location (e : Error) (loc : Location) : Error :=
  { e with location := some loc }

/-- The names of the three error-sink operations of spec section 1. -/
inductive SinkOp
  | build
  | build_from_cause
  | build_from_boxed
deriving DecidableEq, Repr

/-- The constructed-error sink abstraction consumed by the core (spec
section 1): `build(message, backtrace, location)`,
`build_from_cause(error, location)` (receiving the already-converted error),
`build_from_boxed(error, backtrace, location)`. Parametric in the result so
that the same constructor bodies can be read both as producing the unified
error and as recording which sink operation they invoke. -/
structure Sink (α : Type) where
  build : AdhocMsg → Option Backtrace → Option Location → α
  build_from_cause : Error → Option Location → α
  build_from_boxed : BoxedObj → Option Backtrace → Option Location → α

/-- Modelled from the spec: the external unified-error constructor
(`Error::from_adhoc`, `Error::from_boxed` and the location re-stamp live in
error.rs, outside src/). `build` wraps the message's display text as the
sole message with an empty cause chain (spec section 4.2);
`build_from_cause` is the identity on the converted error apart from
stamping the supplied call-site location (spec section 4.3);
`build_from_boxed` wraps the boxed object as the cause, keeping its source
chain reachable and its own reported backtrace when no fresh one was passed
(spec sections 4.4 and 8). -/
def errorSink : Sink Error where
  build := fun m bt loc => { msg := m.display, chain := [], backtrace := bt, location := loc }
  build_from_cause := fun e loc =>
    match loc with
    | some l => set_location e l
    | none => e
  build_from_boxed := fun b bt loc =>
    { msg := b.display
      chain := b.sources
      backtrace := match bt with | some x => some x | none => b.backtrace
      location := loc }

/-- The instrumentation sink: records which sink operation was invoked. -/
def traceSink : Sink (List SinkOp) where
  build := fun _ _ _ => [.build]
  build_from_cause := fun _ _ => [.build_from_cause]
  build_from_boxed := fun _ _ _ => [.build_from_boxed]

/-- `Adhoc::new` (kind.rs lines 66-80), parametric in the sink: pass the
message, a freshly captured backtrace (`backtrace!()`), and the caller
location (under `track_caller`) to `Error::from_adhoc`. -/
def adhocNew {α : Type} (s : Sink α) (cfg : Config) (m : AdhocMsg)
    (here : Backtrace) (caller : Location) : α :=
  s.build m (backtrace_capture cfg here) (caller_location cfg caller)

/-- `Trait::new` (kind.rs lines 93-116), parametric in the sink: convert
`error.into()` first, then (under `track_caller`) re-stamp the caller
location with `set_location` — here folded into the sink operation
`build_from_cause`, which receives the conversion result and the optional
location. -/
def traitNew {α : Type} (s : Sink α) (cfg : Config) (e : CausalErr)
    (caller : Location) : α :=
  s.build_from_cause e.intoError (caller_location cfg caller)

/-- `Boxed::new` (kind.rs lines 133-144), parametric in the sink: compute
`backtrace_if_absent!(&*error)` and pass the boxed object, that backtrace,
and the caller location (under `track_caller`) to `Error::from_boxed`. -/
def boxedNew {α : Type} (s : Sink α) (cfg : Config) (b : BoxedObj)
    (here : Backtrace) (caller : Location) : α :=
  s.build_from_boxed b (backtrace_if_absent cfg b.backtrace here)
    (caller_location cfg caller)

/-- The zero-sized marker value `pub struct Adhoc` (kind.rs line 55). -/
inductive Adhoc
  | mk
deriving DecidableEq, Repr

/-- The zero-sized marker value `pub struct Trait` (kind.rs line 82). -/
inductive Trait
  | mk
deriving DecidableEq, Repr

/-- The zero-sized marker value `pub struct Boxed` (kind.rs line 119,
`std` builds only). -/
inductive Boxed
  | mk
deriving DecidableEq, Repr

/-- `Adhoc::new(self, message)` producing the unified error. -/
def Adhoc.new (_ : Adhoc) (cfg : Config) (m : AdhocMsg) (here : Backtrace)
    (caller : Location) : Error :=
  adhocNew errorSink cfg m here caller

/-- `Trait::new(self, error)` producing the unified error. -/
def Trait.new (_ : Trait) (cfg : Config) (e : CausalErr)
    (caller : Location) : Error :=
  traitNew errorSink cfg e caller

/-- `Boxed.new(self, error)` producing the unified error. -/
def Boxed.new (_ : Boxed) (cfg : Config) (b : BoxedObj) (here : Backtrace)
    (caller : Location) : Error :=
  boxedNew errorSink cfg b here caller

/-! ## Sample build configurations and input types used by witnesses -/

/-- A build with `std`, call-site tracking and the backtrace facility. -/
def cfgFull : Config := ⟨true, true, true⟩

/-- A `no_std` build with the other two facilities present. -/
def cfgNoStd : Config := ⟨false, true, true⟩

/-- A build without call-site tracking. -/
def cfgNoTrack : Config := ⟨true, false, true⟩

/-- The capabilities of a plain message type such as `String`: `Display`,
`Debug`, `Send`, `Sync`, `'static`, but no `Into<Error>` conversion. -/
def stringTy : InputTy := ⟨.other, true, true, true, true, true, false⟩

/-- The capabilities of a concrete structured error type (some
`E : StdError + Send + Sync + 'static`): also `Display + Debug + Send +
Sync + 'static`, and `Into<Error>` via the blanket `From` impl. -/
def stdErrorTy : InputTy := ⟨.other, true, true, true, true, true, true⟩

/-- The capabilities of `Box<dyn StdError + Send + Sync>`: both marker
bounds in the trait-object type, `Display + Debug + Send + Sync + 'static`,
and no `Into<Error>` conversion. -/
def boxDynTy : InputTy := ⟨.boxDynStdError true true, true, true, true, true, true, false⟩

/-- The capabilities of `Box<dyn StdError>` without the marker bounds:
still `Display + Debug`, but neither `Send` nor `Sync`, and no
`Into<Error>` conversion. -/
def boxDynNoMarkerTy : InputTy := ⟨.boxDynStdError false false, true, true, false, false, true, false⟩

/-! ## Helper lemmas shared by the claim theorems -/

/-- Under the crate's type-level facts, a Boxed-eligible type is never
StructuredCause-eligible: `Box<dyn StdError + Send + Sync>` has no
`Into<Error>` conversion. -/
theorem boxedKind_not_traitKind (cfg : Config) (t : InputTy) (hwf : TyWF t)
    (hb : boxedKindApplies cfg t = true) : traitKindApplies t = false := by
  cases hsh : t.shape with
  | boxDynStdError s y =>
      simpa [traitKindApplies] using hwf s y hsh
  | other =>
      exfalso
      have hfalse : boxedKindApplies cfg t = false := by
        simp [boxedKindApplies, hsh]
      rw [hfalse] at hb
      cases hb

/-- A type whose shape is not the boxed trait object trivially satisfies the
type-level facts. -/
theorem tyWF_of_other (t : InputTy) (h : t.shape = .other) : TyWF t := by
  intro s y hsh
  rw [h] at hsh
  cases hsh

/-- A type with no `Into<Error>` conversion trivially satisfies the
type-level facts. -/
theorem tyWF_of_not_into (t : InputTy) (h : t.intoError = false) : TyWF t :=
  fun _ _ _ => h

/-- When no eligibility predicate holds, method resolution finds no
`anyhow_kind` method at all: the construction is rejected at build time. -/
theorem resolveTag_noMatch_of_none (cfg : Config) (t : InputTy)
    (ha : adhocKindApplies t = false) (ht : traitKindApplies t = false)
    (hb : boxedKindApplies cfg t = false) : resolveTag cfg t = .noMatch := by
  simp [resolveTag, ha, ht, hb]

/-! ## Claim theorems -/

/-- Claim C1: capability resolution is deterministic with the fixed
precedence Boxed > StructuredCause > Adhoc. For every input type satisfying
more than one eligibility predicate, method resolution selects the single
eligible tag of highest precedence; in particular a type that is both
StructuredCause- and Boxed-eligible would go through the Boxed path
(under the crate's type-level facts this overlap is empty, so that clause
is vacuous; the overlaps that do occur are with Adhoc, and the autoref step
ordering always prefers the non-Adhoc tag), and a type that is both Adhoc-
and StructuredCause-eligible always goes through the StructuredCause
path. -/
theorem c1_resolution_precedence (cfg : Config) (t : InputTy) (hwf : TyWF t)
    (h2 : ∃ tag1 tag2, tag1 ≠ tag2 ∧ eligible cfg t tag1 = true ∧
      eligible cfg t tag2 = true) :
    (∃ tag, resolveTag cfg t = .resolved tag ∧ eligible cfg t tag = true ∧
      ∀ tag2, eligible cfg t tag2 = true → prec tag2 ≤ prec tag) ∧
    (traitKindApplies t = true ∧ boxedKindApplies cfg t = true →
      resolveTag cfg t = .resolved .boxed) ∧
    (adhocKindApplies t = true ∧ traitKindApplies t = true →
      resolveTag cfg t = .resolved .structuredCause) := by
  have hbt : boxedKindApplies cfg t = true → traitKindApplies t = false :=
    boxedKind_not_traitKind cfg t hwf
  refine ⟨?_, ?_, ?_⟩
  · cases hb : boxedKindApplies cfg t with
    | true =>
        refine ⟨.boxed, ?_, ?_, ?_⟩
        · simp [resolveTag, hbt hb, hb]
        · simpa [eligible] using hb
        · intro tag2 _
          cases tag2 <;> decide
    | false =>
        cases ht : traitKindApplies t with
        | true =>
            refine ⟨.structuredCause, ?_, ?_, ?_⟩
            · simp [resolveTag, ht, hb]
            · simpa [eligible] using ht
            · intro tag2 h2'
              cases tag2 with
              | adhoc => decide
              | structuredCause => decide
              | boxed => simp [eligible, hb] at h2'
        | false =>
            exfalso
            obtain ⟨tag1, tag2, hne, he1, he2⟩ := h2
            have honly : ∀ tag, eligible cfg t tag = true → tag = Tag.adhoc := by
              intro tag he
              cases tag with
              | adhoc => rfl
              | structuredCause => simp [eligible, ht] at he
              | boxed => simp [eligible, hb] at he
            exact hne ((honly tag1 he1).trans (honly tag2 he2).symm)
  · rintro ⟨ht, hb⟩
    rw [hbt hb] at ht
    cases ht
  · rintro ⟨ha, ht⟩
    have hb : boxedKindApplies cfg t = false := by
      cases hb2 : boxedKindApplies cfg t with
      | false => rfl
      | true => rw [hbt hb2] at ht; cases ht
    simp [resolveTag, ht, hb]

/-- Witness for C1: a concrete structured error type (Adhoc- and
StructuredCause-eligible) resolves to the StructuredCause tag, the highest
eligible precedence. -/
theorem c1_resolution_precedence_witness :
    ∃ tag, resolveTag cfgFull stdErrorTy = .resolved tag ∧
      eligible cfgFull stdErrorTy tag = true ∧
      ∀ tag2, eligible cfgFull stdErrorTy tag2 = true → prec tag2 ≤ prec tag :=
  (c1_resolution_precedence cfgFull stdErrorTy (tyWF_of_other stdErrorTy rfl)
    ⟨.adhoc, .structuredCause, by decide, by decide, by decide⟩).1

/-- Claim C6: a value satisfying only Adhoc-eligibility (no `Into<Error>`
conversion) makes the StructuredCause-eligibility predicate itself false —
`TraitKind`'s blanket impl does not cover it, so it cannot be routed through
the StructuredCause path at all, and absent Boxed-eligibility it resolves to
the Adhoc tag. -/
theorem c6_adhoc_only_not_structured (cfg : Config) (t : InputTy)
    (ha : adhocKindApplies t = true) (hni : t.intoError = false) :
    traitKindApplies t = false ∧
    resolveTag cfg t ≠ .resolved .structuredCause ∧
    (boxedKindApplies cfg t = false → resolveTag cfg t = .resolved .adhoc) := by
  have ht : traitKindApplies t = false := by simpa [traitKindApplies] using hni
  refine ⟨ht, ?_, ?_⟩
  · cases hb : boxedKindApplies cfg t with
    | true => simp [resolveTag, ht, hb]
    | false => simp [resolveTag, ht, hb, ha]
  · intro hb
    simp [resolveTag, ht, hb, ha]

/-- Witness for C6: a plain `String`-like message type is not
StructuredCause-eligible and resolves to the Adhoc tag. -/
theorem c6_adhoc_only_not_structured_witness :
    traitKindApplies stringTy = false ∧
    resolveTag cfgFull stringTy ≠ .resolved .structuredCause ∧
    resolveTag cfgFull stringTy = .resolved .adhoc := by
  have h := c6_adhoc_only_not_structured cfgFull stringTy (by decide) (by decide)
  exact ⟨h.1, h.2.1, h.2.2 (by decide)⟩

/-- Claim C8: given a well-typed input (one satisfying at least one
eligibility predicate) resolution always yields exactly one tag and never an
ambiguity, each constructor totally returns a unified error, and a value
satisfying none of the predicates is rejected before any call is made
(method resolution fails at build time, producing no error value). -/
theorem c8_total_construction (cfg : Config) (t : InputTy) (hwf : TyWF t) :
    resolveTag cfg t ≠ .ambiguous ∧
    ((adhocKindApplies t || traitKindApplies t || boxedKindApplies cfg t) = true ↔
      ∃ tag, resolveTag cfg t = .resolved tag) ∧
    ((adhocKindApplies t || traitKindApplies t || boxedKindApplies cfg t) = false →
      resolveTag cfg t = .noMatch) ∧
    (∀ m here caller, ∃ err : Error, Adhoc.new .mk cfg m here caller = err) ∧
    (∀ e caller, ∃ err : Error, Trait.new .mk cfg e caller = err) ∧
    (∀ b here caller, ∃ err : Error, Boxed.new .mk cfg b here caller = err) := by
  have hbt : boxedKindApplies cfg t = true → traitKindApplies t = false :=
    boxedKind_not_traitKind cfg t hwf
  refine ⟨?_, ⟨?_, ?_⟩, ?_, fun m here caller => ⟨_, rfl⟩,
    fun e caller => ⟨_, rfl⟩, fun b here caller => ⟨_, rfl⟩⟩
  · cases hb : boxedKindApplies cfg t with
    | true => simp [resolveTag, hbt hb, hb]
    | false =>
        cases ht : traitKindApplies t with
        | true => simp [resolveTag, ht, hb]
        | false =>
            cases ha : adhocKindApplies t with
            | true => simp [resolveTag, ht, hb, ha]
            | false => simp [resolveTag, ht, hb, ha]
  · intro h
    cases hb : boxedKindApplies cfg t with
    | true => exact ⟨.boxed, by simp [resolveTag, hbt hb, hb]⟩
    | false =>
        cases ht : traitKindApplies t with
        | true => exact ⟨.structuredCause, by simp [resolveTag, ht, hb]⟩
        | false =>
            rw [ht, hb] at h
            have ha : adhocKindApplies t = true := by simpa using h
            exact ⟨.adhoc, by simp [resolveTag, ht, hb, ha]⟩
  · rintro ⟨tag, htag⟩
    cases ha : adhocKindApplies t with
    | true => simp [ha]
    | false =>
        cases ht : traitKindApplies t with
        | true => simp [ht]
        | false =>
            cases hb : boxedKindApplies cfg t with
            | true => simp [hb]
            | false =>
                rw [resolveTag_noMatch_of_none cfg t ha ht hb] at htag
                exact Resolution.noConfusion htag
  · intro hnone
    rw [Bool.or_eq_false_iff, Bool.or_eq_false_iff] at hnone
    exact resolveTag_noMatch_of_none cfg t hnone.1.1 hnone.1.2 hnone.2

/-- Witness for C8: on a plain message type in a full-featured build,
resolution is unambiguous and succeeds, and the Adhoc constructor returns a
unified error. -/
theorem c8_total_construction_witness :
    resolveTag cfgFull stringTy ≠ .ambiguous ∧
    (∃ tag, resolveTag cfgFull stringTy = .resolved tag) ∧
    (∃ err : Error, Adhoc.new .mk cfgFull ⟨"disk full"⟩ 7 3 = err) := by
  have h := c8_total_construction cfgFull stringTy (tyWF_of_other stringTy rfl)
  exact ⟨h.1, h.2.1.mp (by decide), h.2.2.2.1 ⟨"disk full"⟩ 7 3⟩

/-- Claim C9: the Boxed strategy exists only in `std` builds. Without the
`std` feature the `BoxedKind` impl is absent, no input can resolve to the
Boxed tag, and every resolvable input goes through Adhoc or StructuredCause;
with `std` enabled, the type `Box<dyn StdError + Send + Sync>` resolves to
the Boxed tag. -/
theorem c9_boxed_requires_std (cfg cfg2 : Config) (t : InputTy)
    (hNoStd : cfg.std = false) (hStd : cfg2.std = true) :
    boxedKindApplies cfg t = false ∧
    resolveTag cfg t ≠ .resolved .boxed ∧
    (∀ tag, resolveTag cfg t = .resolved tag →
      tag = .adhoc ∨ tag = .structuredCause) ∧
    boxedKindApplies cfg2 boxDynTy = true ∧
    resolveTag cfg2 boxDynTy = .resolved .boxed := by
  have hb : boxedKindApplies cfg t = false := by
    simp [boxedKindApplies, hNoStd]
  have hb2 : boxedKindApplies cfg2 boxDynTy = true := by
    simp [boxedKindApplies, boxDynTy, hStd]
  refine ⟨hb, ?_, ?_, hb2, ?_⟩
  · cases ht : traitKindApplies t with
    | true => simp [resolveTag, ht, hb]
    | false =>
        cases ha : adhocKindApplies t with
        | true => simp [resolveTag, ht, hb, ha]
        | false => simp [resolveTag, ht, hb, ha]
  · intro tag htag
    cases ht : traitKindApplies t with
    | true =>
        rw [resolveTag, ht, hb] at htag
        cases htag
        exact Or.inr rfl
    | false =>
        cases ha : adhocKindApplies t with
        | true =>
            rw [resolveTag, ht, hb] at htag
            simp only [ha, if_true] at htag
            cases htag
            exact Or.inl rfl
        | false =>
            rw [resolveTag_noMatch_of_none cfg t ha ht hb] at htag
            exact Resolution.noConfusion htag
  · have ht2 : traitKindApplies boxDynTy = false := by decide
    simp [resolveTag, ht2, hb2]

/-- Witness for C9: in a `no_std` build even `Box<dyn StdError + Send +
Sync>` is not Boxed-eligible (it resolves through Adhoc instead), while the
same type in an `std` build resolves to the Boxed tag. -/
theorem c9_boxed_requires_std_witness :
    boxedKindApplies cfgNoStd boxDynTy = false ∧
    resolveTag cfgNoStd boxDynTy ≠ .resolved .boxed ∧
    boxedKindApplies cfgFull boxDynTy = true ∧
    resolveTag cfgFull boxDynTy = .resolved .boxed := by
  have h := c9_boxed_requires_std cfgNoStd cfgFull boxDynTy rfl rfl
  exact ⟨h.1, h.2.1, h.2.2.2.1, h.2.2.2.2⟩

/-- Claim C10: Boxed-eligibility holds for exactly the type
`Box<dyn StdError + Send + Sync>`. For a boxed dynamic error-object type,
the `BoxedKind` impl applies precisely when both marker bounds are present
(and `std` is on); a boxed trait object lacking `Send` or `Sync` (such as
`Box<dyn StdError>`) fails the predicate, and — since without the markers it
is not Adhoc-eligible either and has no `Into<Error>` conversion — method
resolution rejects it outright. -/
theorem c10_boxed_eligibility_exact (cfg : Config) (t : InputTy) (s y : Bool)
    (hsh : t.shape = .boxDynStdError s y) :
    boxedKindApplies cfg t = (cfg.std && (s && y)) ∧
    (boxedKindApplies cfg t = true ↔ cfg.std = true ∧ s = true ∧ y = true) ∧
    ((s && y) = false → t.send = s → t.sync = y → t.intoError = false →
      resolveTag cfg t = .noMatch) := by
  have h1 : boxedKindApplies cfg t = (cfg.std && (s && y)) := by
    simp [boxedKindApplies, hsh]
  refine ⟨h1, ?_, ?_⟩
  · rw [h1]
    simp [Bool.and_eq_true, and_assoc]
  · intro hsy hsend hsync hint
    have ha : adhocKindApplies t = false := by
      rw [adhocKindApplies, hsend, hsync]
      cases s with
      | false => simp
      | true =>
          cases y with
          | false => simp
          | true => cases hsy
    have ht : traitKindApplies t = false := by
      simpa [traitKindApplies] using hint
    have hb : boxedKindApplies cfg t = false := by
      rw [h1, hsy, Bool.and_false]
    exact resolveTag_noMatch_of_none cfg t ha ht hb

/-- Witness for C10: `Box<dyn StdError>` without the marker bounds is not
Boxed-eligible and its construction is rejected at build time, in a full
`std` build. -/
theorem c10_boxed_eligibility_exact_witness :
    boxedKindApplies cfgFull boxDynNoMarkerTy = (cfgFull.std && (false && false)) ∧
    resolveTag cfgFull boxDynNoMarkerTy = .noMatch := by
  have h := c10_boxed_eligibility_exact cfgFull boxDynNoMarkerTy false false rfl
  exact ⟨h.1, h.2.2 rfl rfl rfl rfl⟩

/-- Claim C2: for every Adhoc-eligible input, `Adhoc.new` produces a unified
error whose display text equals the message's display formatting and whose
cause chain is empty, and it captures a backtrace unconditionally — the
backtrace passed to the sink is exactly the fresh `backtrace!()` capture,
independent of the input, so whenever the backtrace facility is enabled the
resulting error carries the freshly captured trace. -/
theorem c2_adhoc_construction (cfg : Config) (m : AdhocMsg) (here : Backtrace)
    (caller : Location) :
    (Adhoc.new .mk cfg m here caller).msg = m.display ∧
    (Adhoc.new .mk cfg m here caller).chain = [] ∧
    (Adhoc.new .mk cfg m here caller).backtrace = backtrace_capture cfg here ∧
    (cfg.backtraceEnabled = true →
      (Adhoc.new .mk cfg m here caller).backtrace = some here) := by
  refine ⟨rfl, rfl, rfl, ?_⟩
  intro hbt
  simp [Adhoc.new, adhocNew, errorSink, backtrace_capture, hbt]

/-- Witness for C2: constructing from the literal message "disk full" yields
display "disk full", an empty chain, and the fresh backtrace. -/
theorem c2_adhoc_construction_witness :
    (Adhoc.new .mk cfgFull ⟨"disk full"⟩ 7 3).msg = "disk full" ∧
    (Adhoc.new .mk cfgFull ⟨"disk full"⟩ 7 3).chain = [] ∧
    (Adhoc.new .mk cfgFull ⟨"disk full"⟩ 7 3).backtrace = some 7 := by
  have h := c2_adhoc_construction cfgFull ⟨"disk full"⟩ 7 3
  exact ⟨h.1, h.2.1, h.2.2.2 rfl⟩

/-- Claim C3: `Trait.new` returns exactly the direct conversion
`error.into()` with only the call-site location overwritten (and only when
location tracking is compiled in): the converted error's display text, cause
chain and backtrace pass through unchanged, no new backtrace is captured,
and the location is re-stamped to the constructor's own call site. -/
theorem c3_trait_construction (cfg : Config) (e : CausalErr)
    (caller : Location) :
    Trait.new .mk cfg e caller =
      (if cfg.trackCaller then set_location e.intoError caller
       else e.intoError) ∧
    (Trait.new .mk cfg e caller).msg = e.intoError.msg ∧
    (Trait.new .mk cfg e caller).chain = e.intoError.chain ∧
    (Trait.new .mk cfg e caller).backtrace = e.intoError.backtrace ∧
    (Trait.new .mk cfg e caller).location =
      (if cfg.trackCaller then some caller else e.intoError.location) := by
  cases htc : cfg.trackCaller with
  | true =>
      refine ⟨?_, ?_, ?_, ?_, ?_⟩ <;>
        simp [Trait.new, traitNew, errorSink, caller_location, set_location, htc]
  | false =>
      refine ⟨?_, ?_, ?_, ?_, ?_⟩ <;>
        simp [Trait.new, traitNew, errorSink, caller_location, htc]

/-- Claim C4: `Boxed.new` captures a backtrace if and only if the boxed
object does not already report one: when the object reports a backtrace, the
resulting error keeps exactly that backtrace and `backtrace_if_absent`
performs no capture; when it reports none, the resulting error carries the
fresh `backtrace!()` capture (present exactly when the host backtrace
facility is enabled). -/
theorem c4_boxed_backtrace_policy (cfg : Config) (b : BoxedObj)
    (here : Backtrace) (caller : Location) :
    (Boxed.new .mk cfg b here caller).backtrace =
      (match b.backtrace with
       | some bt0 => some bt0
       | none => backtrace_capture cfg here) ∧
    (backtrace_if_absent cfg b.backtrace here).isSome =
      (cfg.backtraceEnabled && b.backtrace.isNone) ∧
    (∀ bt0, b.backtrace = some bt0 →
      (Boxed.new .mk cfg b here caller).backtrace = some bt0 ∧
      backtrace_if_absent cfg b.backtrace here = none) := by
  refine ⟨?_, ?_, ?_⟩
  · cases hrep : b.backtrace with
    | some bt0 =>
        simp [Boxed.new, boxedNew, errorSink, backtrace_if_absent, hrep]
    | none =>
        cases hbt : cfg.backtraceEnabled with
        | true =>
            simp [Boxed.new, boxedNew, errorSink, backtrace_if_absent,
              backtrace_capture, hrep, hbt]
        | false =>
            simp [Boxed.new, boxedNew, errorSink, backtrace_if_absent,
              backtrace_capture, hrep, hbt]
  · cases hrep : b.backtrace with
    | some bt0 => simp [backtrace_if_absent, hrep]
    | none =>
        cases hbt : cfg.backtraceEnabled with
        | true => simp [backtrace_if_absent, backtrace_capture, hrep, hbt]
        | false => simp [backtrace_if_absent, backtrace_capture, hrep, hbt]
  · intro bt0 hrep
    constructor
    · simp [Boxed.new, boxedNew, errorSink, backtrace_if_absent, hrep]
    · simp [backtrace_if_absent, hrep]

/-- Witness for C4: a boxed object already reporting backtrace 5 keeps
exactly that backtrace and no capture occurs. -/
theorem c4_boxed_backtrace_policy_witness :
    (Boxed.new .mk cfgFull ⟨"io fail", ["root"], some 5⟩ 9 3).backtrace = some 5 ∧
    backtrace_if_absent cfgFull (some 5) 9 = none := by
  have h := c4_boxed_backtrace_policy cfgFull ⟨"io fail", ["root"], some 5⟩ 9 3
  exact h.2.2 5 rfl

/-- Claim C5: every construction call invokes exactly one error-sink
operation, the one matching its strategy — the same constructor bodies, read
with the instrumentation sink, record precisely `[build]` on the Adhoc path,
`[build_from_cause]` on the StructuredCause path and `[build_from_boxed]` on
the Boxed path — and, read with the real sink, each path returns the single
unified error produced by that one operation. -/
theorem c5_exactly_one_sink_call (cfg : Config) (m : AdhocMsg) (e : CausalErr)
    (b : BoxedObj) (here : Backtrace) (caller : Location) :
    adhocNew traceSink cfg m here caller = [SinkOp.build] ∧
    traitNew traceSink cfg e caller = [SinkOp.build_from_cause] ∧
    boxedNew traceSink cfg b here caller = [SinkOp.build_from_boxed] ∧
    Adhoc.new .mk cfg m here caller =
      errorSink.build m (backtrace_capture cfg here)
        (caller_location cfg caller) ∧
    Trait.new .mk cfg e caller =
      errorSink.build_from_cause e.intoError (caller_location cfg caller) ∧
    Boxed.new .mk cfg b here caller =
      errorSink.build_from_boxed b (backtrace_if_absent cfg b.backtrace here)
        (caller_location cfg caller) :=
  ⟨rfl, rfl, rfl, rfl, rfl, rfl⟩

/-- Claim C7: when call-site tracking is enabled every constructor records
its own call site, so constructions at distinct source locations carry
distinct recorded locations; when tracking is disabled no constructor
records a location and (the conversion path likewise carrying none, since
the field is compiled out everywhere) the location field is absent on every
produced error. -/
theorem c7_location_policy (cfg : Config) (m : AdhocMsg) (e : CausalErr)
    (b : BoxedObj) (here : Backtrace) (caller caller2 : Location) :
    (cfg.trackCaller = true →
      (Adhoc.new .mk cfg m here caller).location = some caller ∧
      (Trait.new .mk cfg e caller).location = some caller ∧
      (Boxed.new .mk cfg b here caller).location = some caller ∧
      (caller ≠ caller2 →
        (Adhoc.new .mk cfg m here caller).location ≠
          (Adhoc.new .mk cfg m here caller2).location)) ∧
    (cfg.trackCaller = false →
      (Adhoc.new .mk cfg m here caller).location = none ∧
      (Boxed.new .mk cfg b here caller).location = none ∧
      (e.intoError.location = none →
        (Trait.new .mk cfg e caller).location = none)) := by
  constructor
  · intro htc
    refine ⟨?_, ?_, ?_, ?_⟩
    · simp [Adhoc.new, adhocNew, errorSink, caller_location, htc]
    · simp [Trait.new, traitNew, errorSink, caller_location, set_location, htc]
    · simp [Boxed.new, boxedNew, errorSink, caller_location, htc]
    · intro hne
      simp [Adhoc.new, adhocNew, errorSink, caller_location, htc]
      exact hne
  · intro htc
    refine ⟨?_, ?_, ?_⟩
    · simp [Adhoc.new, adhocNew, errorSink, caller_location, htc]
    · simp [Boxed.new, boxedNew, errorSink, caller_location, htc]
    · intro hloc
      simp [Trait.new, traitNew, errorSink, caller_location, htc, hloc]

/-- Witness for C7: with tracking enabled, call sites 10 and 11 are recorded
and distinct; with tracking disabled, no path records a location. -/
theorem c7_location_policy_witness :
    (Adhoc.new .mk cfgFull ⟨"m"⟩ 0 10).location = some 10 ∧
    (Adhoc.new .mk cfgFull ⟨"m"⟩ 0 10).location ≠
      (Adhoc.new .mk cfgFull ⟨"m"⟩ 0 11).location ∧
    (Adhoc.new .mk cfgNoTrack ⟨"m"⟩ 0 10).location = none ∧
    (Trait.new .mk cfgNoTrack ⟨⟨"x", [], none, none⟩⟩ 10).location = none := by
  have h1 := c7_location_policy cfgFull ⟨"m"⟩ ⟨⟨"x", [], none, none⟩⟩
    ⟨"b", [], none⟩ 0 10 11
  have h2 := c7_location_policy cfgNoTrack ⟨"m"⟩ ⟨⟨"x", [], none, none⟩⟩
    ⟨"b", [], none⟩ 0 10 11
  exact ⟨(h1.1 rfl).1, (h1.1 rfl).2.2.2 (by decide), (h2.2 rfl).1,
    (h2.2 rfl).2.2 rfl⟩

end AnyhowKind
